import Mathlib

/-! Verification of the mult-camera-sync capture-orchestration core.

A shallow embedding, in Lean 4, of the coordination logic of the
`mult-camera-sync` repository: the completion barrier shared by the
two-camera controllers (`sync_2_fe.py`, `sync_2_fr.py`, `sync_2_re.py`),
the live dual-stream synchronizer, the FLIR capture worker loop, the
thermal frame-callback queue, the serial trigger dispatcher, the
frame-saving finalizers, and the thermal `connect` routine.  Each
definition is translated from the corresponding Python function; the
theorems at the end of the file settle the specification claims.
-/

/-- Lifecycle phase of one sensor inside a capture session
(`Idle -> Capturing -> CaptureDone -> ProcessingDone` in the spec). -/
inductive Phase where
  | idle
  | capturing
  | captureDone
  | processingDone
deriving DecidableEq, Repr

/-- A sensor has reported to the completion barrier, i.e. its worker has
invoked `_mark_camera_complete`.  In the controllers this happens as soon
as the worker's capture section finishes (and, for the thermal worker,
after its internal processing), so every phase past `capturing` counts. -/
def Phase.reported : Phase → Bool
  | .idle => false
  | .capturing => false
  | .captureDone => true
  | .processingDone => true

/-- Model of `_mark_camera_complete` (identical in `sync_2_fe.py`, `sync_2_fr.py`,
`sync_2_re.py`): under `status_lock`, increment `completed_cameras`; if it
reached 2 (both cameras), set `capture_complete_event`.  Returns the new
`(completed_cameras, capture_complete_event)` pair. -/
def markCameraComplete (completedCameras : Nat) (captureCompleteEvent : Bool) :
    Nat × Bool :=
  let completed := completedCameras + 1
  (completed, if 2 ≤ completed then true else captureCompleteEvent)

/-- Barrier-relevant state of `AsyncFlirEventController` (`sync_2_fe.py`):
the phase of the FLIR sensor, the phase of the event sensor, the
`completed_cameras` counter and the `capture_complete_event` flag. -/
structure FeState where
  flir : Phase
  event : Phase
  completedCameras : Nat
  completeEvent : Bool
deriving DecidableEq, Repr

/-- State right after `start_capture` resets the controller and launches the
workers: both sensors capturing, counter 0, event cleared. -/
def FeState.init : FeState :=
  { flir := .capturing, event := .capturing,
    completedCameras := 0, completeEvent := false }

/-- Transitions of the `sync_2_fe.py` session, read off the code:
* `_flir_capture_worker` finishes its capture loop and immediately calls
  `_mark_camera_complete("FLIR")` (before any FLIR data is saved);
* `_prophesee_capture_worker` returns from `start_recording` and calls
  `_mark_camera_complete("事件")`;
* `_flir_data_processor` finalizes (saves the FLIR data) only once its
  queue is drained and `capture_complete_event` is already set;
* `_event_data_processor` starts processing only after waiting on
  `capture_complete_event`. -/
inductive FeStep : FeState → FeState → Prop
  | flirCaptureDone (s : FeState) (h : s.flir = Phase.capturing) :
      FeStep s
        { flir := Phase.captureDone, event := s.event,
          completedCameras := (markCameraComplete s.completedCameras s.completeEvent).1,
          completeEvent := (markCameraComplete s.completedCameras s.completeEvent).2 }
  | eventCaptureDone (s : FeState) (h : s.event = Phase.capturing) :
      FeStep s
        { flir := s.flir, event := Phase.captureDone,
          completedCameras := (markCameraComplete s.completedCameras s.completeEvent).1,
          completeEvent := (markCameraComplete s.completedCameras s.completeEvent).2 }
  | flirProcessingDone (s : FeState) (h : s.flir = Phase.captureDone)
      (hev : s.completeEvent = true) :
      FeStep s { s with flir := Phase.processingDone }
  | eventProcessingDone (s : FeState) (h : s.event = Phase.captureDone)
      (hev : s.completeEvent = true) :
      FeStep s { s with event := Phase.processingDone }

/-- States of the `sync_2_fe.py` session reachable from the post-reset state. -/
inductive FeReachable : FeState → Prop
  | init : FeReachable FeState.init
  | step {s s' : FeState} : FeReachable s → FeStep s s' → FeReachable s'

/-- Coupling invariant of the FE barrier: the counter equals the number of
sensors that have reported, and the event flag mirrors `counter ≥ 2`. -/
def feInv (s : FeState) : Prop :=
  s.completedCameras =
    (if s.flir.reported then 1 else 0) + (if s.event.reported then 1 else 0)
  ∧ s.completeEvent = decide (2 ≤ s.completedCameras)

lemma feInv_init : feInv FeState.init := by
  simp [feInv, FeState.init, Phase.reported]

lemma feInv_step {s s' : FeState} (h : feInv s) (hstep : FeStep s s') : feInv s' := by
  obtain ⟨hcount, hev⟩ := h
  cases hstep with
  | flirCaptureDone hf =>
      refine ⟨?_, ?_⟩
      · simp [markCameraComplete, hcount, hf, Phase.reported]
        omega
      · simp only [markCameraComplete]
        by_cases hge : 2 ≤ s.completedCameras + 1
        · simp [hge]
        · have h2 : ¬ 2 ≤ s.completedCameras := by omega
          simp [hge, h2, hev]
  | eventCaptureDone hf =>
      refine ⟨?_, ?_⟩
      · simp [markCameraComplete, hcount, hf, Phase.reported]
      · simp only [markCameraComplete]
        by_cases hge : 2 ≤ s.completedCameras + 1
        · simp [hge]
        · have h2 : ¬ 2 ≤ s.completedCameras := by omega
          simp [hge, h2, hev]
  | flirProcessingDone hf hev' =>
      exact ⟨by simp [hcount, hf, Phase.reported], by simpa using hev⟩
  | eventProcessingDone hf hev' =>
      exact ⟨by simp [hcount, hf, Phase.reported], by simpa using hev⟩

lemma feInv_reachable {s : FeState} (h : FeReachable s) : feInv s := by
  induction h with
  | init => exact feInv_init
  | step _ hstep ih => exact feInv_step ih hstep

/-- The state reached by letting the FLIR worker and then the event worker
finish their capture sections, before any data processing has happened. -/
def feBothCaptured : FeState :=
  { flir := Phase.captureDone, event := Phase.captureDone,
    completedCameras := 2, completeEvent := true }

lemma feBothCaptured_reachable : FeReachable feBothCaptured := by
  have h1 : FeStep FeState.init
      { flir := Phase.captureDone, event := Phase.capturing,
        completedCameras := 1, completeEvent := false } :=
    FeStep.flirCaptureDone FeState.init rfl
  have h2 : FeStep
      { flir := Phase.captureDone, event := Phase.capturing,
        completedCameras := 1, completeEvent := false } feBothCaptured :=
    FeStep.eventCaptureDone _ rfl
  exact FeReachable.step (FeReachable.step FeReachable.init h1) h2

/-- Barrier-relevant state of `AsyncFlirThermalController` (`sync_2_fr.py`)
and, with the event camera in place of FLIR, of
`AsyncEventThermalController` (`sync_2_re.py`): the frame sensor's phase,
the thermal sensor's phase, `completed_cameras` and
`capture_complete_event`. -/
structure FrState where
  flir : Phase
  thermal : Phase
  completedCameras : Nat
  completeEvent : Bool
deriving DecidableEq, Repr

/-- State right after `start_capture` resets the controller. -/
def FrState.init : FrState :=
  { flir := .capturing, thermal := .capturing,
    completedCameras := 0, completeEvent := false }

/-- Transitions of the `sync_2_fr.py` / `sync_2_re.py` session:
* the FLIR (resp. event) worker finishes capture and calls
  `_mark_camera_complete` before its data is saved;
* `_thermal_capture_worker` runs `start_capture` plus
  `wait_for_completion` (which includes `process_frames`) and only then
  calls `_mark_camera_complete`, so the thermal sensor reports with
  capture and processing both finished;
* the FLIR data processor finalizes only once its queue is drained and
  `capture_complete_event` is set. -/
inductive FrStep : FrState → FrState → Prop
  | flirCaptureDone (s : FrState) (h : s.flir = Phase.capturing) :
      FrStep s
        { flir := Phase.captureDone, thermal := s.thermal,
          completedCameras := (markCameraComplete s.completedCameras s.completeEvent).1,
          completeEvent := (markCameraComplete s.completedCameras s.completeEvent).2 }
  | thermalAllDone (s : FrState) (h : s.thermal = Phase.capturing) :
      FrStep s
        { flir := s.flir, thermal := Phase.processingDone,
          completedCameras := (markCameraComplete s.completedCameras s.completeEvent).1,
          completeEvent := (markCameraComplete s.completedCameras s.completeEvent).2 }
  | flirProcessingDone (s : FrState) (h : s.flir = Phase.captureDone)
      (hev : s.completeEvent = true) :
      FrStep s { s with flir := Phase.processingDone }

/-- States of a `sync_2_fr.py` / `sync_2_re.py` session reachable from the
post-reset state. -/
inductive FrReachable : FrState → Prop
  | init : FrReachable FrState.init
  | step {s s' : FrState} : FrReachable s → FrStep s s' → FrReachable s'

/-- Coupling invariant of the FR/RE barrier. -/
def frInv (s : FrState) : Prop :=
  s.completedCameras =
    (if s.flir.reported then 1 else 0) + (if s.thermal.reported then 1 else 0)
  ∧ s.completeEvent = decide (2 ≤ s.completedCameras)

lemma frInv_init : frInv FrState.init := by
  simp [frInv, FrState.init, Phase.reported]

lemma frInv_step {s s' : FrState} (h : frInv s) (hstep : FrStep s s') : frInv s' := by
  obtain ⟨hcount, hev⟩ := h
  cases hstep with
  | flirCaptureDone hf =>
      refine ⟨?_, ?_⟩
      · simp [markCameraComplete, hcount, hf, Phase.reported]
        omega
      · simp only [markCameraComplete]
        by_cases hge : 2 ≤ s.completedCameras + 1
        · simp [hge]
        · have h2 : ¬ 2 ≤ s.completedCameras := by omega
          simp [hge, h2, hev]
  | thermalAllDone hf =>
      refine ⟨?_, ?_⟩
      · simp [markCameraComplete, hcount, hf, Phase.reported]
      · simp only [markCameraComplete]
        by_cases hge : 2 ≤ s.completedCameras + 1
        · simp [hge]
        · have h2 : ¬ 2 ≤ s.completedCameras := by omega
          simp [hge, h2, hev]
  | flirProcessingDone hf hev' =>
      exact ⟨by simp [hcount, hf, Phase.reported], by simpa using hev⟩

lemma frInv_reachable {s : FrState} (h : FrReachable s) : frInv s := by
  induction h with
  | init => exact frInv_init
  | step _ hstep ih => exact frInv_step ih hstep

/-- Every FR/RE step moves `completed_cameras` up by zero or one and never
clears the complete event once set. -/
lemma frStep_count {s s' : FrState} (hstep : FrStep s s') :
    s.completedCameras ≤ s'.completedCameras ∧
      s'.completedCameras ≤ s.completedCameras + 1 := by
  cases hstep with
  | flirCaptureDone hf => simp [markCameraComplete]
  | thermalAllDone hf => simp [markCameraComplete]
  | flirProcessingDone hf hev => simp

/-- Stream-pairing state of `AsyncFlirThermalController` (`sync_2_fr.py`):
the two per-camera frame counters, the two latest downsampled preview
frames (payloads abstracted to `Nat`), the two `*_stream_id` ticks (kept
as `Int` because they are initialised to `-1`), and the two
`*_ready_for_stream` flags.  All fields are mutated under `stream_lock`. -/
structure StreamState where
  flirFrameCount : Nat
  thermalFrameCount : Nat
  latestFlir : Option Nat
  latestThermal : Option Nat
  latestFlirStreamId : Int
  latestThermalStreamId : Int
  flirReady : Bool
  thermalReady : Bool
deriving DecidableEq, Repr

/-- Stream state set up in `__init__` / reset in `start_capture`. -/
def StreamState.init : StreamState :=
  { flirFrameCount := 0, thermalFrameCount := 0,
    latestFlir := none, latestThermal := none,
    latestFlirStreamId := -1, latestThermalStreamId := -1,
    flirReady := false, thermalReady := false }

/-- Model of `_try_sync_stream` (`sync_2_fr.py`): if both cameras are ready, both
latest frames exist and both stream ids are positive, compare the ids.
When they differ by at most 1, push the side-by-side composite of the two
latest frames and clear both ready flags; otherwise clear only the ready
flag of the camera whose id is smaller (the one that is behind).  Returns
the new state together with the pushed composite, if any. -/
def trySyncStream (s : StreamState) : StreamState × Option (Nat × Nat) :=
  if s.flirReady && s.thermalReady &&
      s.latestFlir.isSome && s.latestThermal.isSome &&
      decide (0 < s.latestFlirStreamId) && decide (0 < s.latestThermalStreamId) then
    let streamIdDiff := (s.latestFlirStreamId - s.latestThermalStreamId).natAbs
    if streamIdDiff ≤ 1 then
      ({ s with flirReady := false, thermalReady := false },
        some (s.latestFlir.getD 0, s.latestThermal.getD 0))
    else
      if s.latestFlirStreamId < s.latestThermalStreamId then
        ({ s with flirReady := false }, none)
      else
        ({ s with thermalReady := false }, none)
  else
    (s, none)

/-- Model of `_on_thermal_frame` (`sync_2_fr.py`): under `stream_lock`, advance the
thermal counter by one push interval, record the frame as the latest
thermal preview, set its stream id to `count // interval`, mark the
thermal camera ready, then attempt a synchronized push. -/
def onThermalFrame (interval : Nat) (thermalImg : Nat) (s : StreamState) :
    StreamState × Option (Nat × Nat) :=
  let count := s.thermalFrameCount + interval
  trySyncStream
    { s with thermalFrameCount := count,
             latestThermal := some thermalImg,
             latestThermalStreamId := (count / interval : Nat),
             thermalReady := true }

/-- Streaming section of `_flir_capture_worker` (`sync_2_fr.py`): under
`stream_lock`, advance the FLIR counter by one; on every
`stream_push_interval`-th frame record the resized frame as the latest
FLIR preview with stream id `count // interval`, mark FLIR ready and
attempt a synchronized push; other frames skip the streaming work. -/
def flirStreamUpdate (interval : Nat) (flirImg : Nat) (s : StreamState) :
    StreamState × Option (Nat × Nat) :=
  let count := s.flirFrameCount + 1
  let s := { s with flirFrameCount := count }
  if count % interval = 0 then
    trySyncStream
      { s with latestFlir := some flirImg,
               latestFlirStreamId := (count / interval : Nat),
               flirReady := true }
  else
    (s, none)

/-- One result of `cam.GetNextImage(1000)` inside the FLIR capture loop:
either a frame (complete or incomplete, payload abstracted to `Nat`), or
an exception raised by the adapter. -/
inductive AdapterResult where
  | frame (incomplete : Bool) (data : Nat)
  | exn
deriving DecidableEq, Repr

/-- Observable outcome of one run of `_flir_capture_worker`
(`sync_2_fe.py` / `sync_2_fr.py`): the `(index, data)` pairs put on
`flir_queue`, whether the post-loop completion block ran (in `sync_2_fe.py`
it sets `ACQUISITION_FLAG` and calls `_mark_camera_complete`), and whether
the `except` handler wrote `RUNNING.value = 0`. -/
structure WorkerResult where
  enqueued : List (Nat × Nat)
  acquisitionFlag : Bool
  marked : Bool
  runningCleared : Bool
deriving DecidableEq, Repr

/-- The `for i in range(NUM_IMAGES)` loop of `_flir_capture_worker`,
with `fuel` the remaining iterations and `i` the loop index
(`fuel = numImages - i`).  `running j` is the value of `RUNNING.value`
observed at iteration `j`; `adapter j` is what `GetNextImage` returns
there.  An incomplete frame is released and skipped via `continue`; a
complete frame is enqueued as `(i, data)`; an adapter exception aborts
the loop into the `except` handler, which only clears `RUNNING`. -/
def workerLoop (adapter : Nat → AdapterResult) (running : Nat → Bool) :
    Nat → Nat → List (Nat × Nat) → WorkerResult
  | 0, _, acc =>
      { enqueued := acc.reverse, acquisitionFlag := true,
        marked := true, runningCleared := false }
  | fuel + 1, i, acc =>
      if running i = false then
        { enqueued := acc.reverse, acquisitionFlag := true,
          marked := true, runningCleared := false }
      else
        match adapter i with
        | .exn =>
            { enqueued := acc.reverse, acquisitionFlag := false,
              marked := false, runningCleared := true }
        | .frame incomplete d =>
            if incomplete then workerLoop adapter running fuel (i + 1) acc
            else workerLoop adapter running fuel (i + 1) ((i, d) :: acc)

/-- The `_flir_capture_worker` run for a quota of `numImages` frames. -/
def flirCaptureWorker (adapter : Nat → AdapterResult) (running : Nat → Bool)
    (numImages : Nat) : WorkerResult :=
  workerLoop adapter running numImages 0 []

/-- Observable outcome of `_prophesee_capture_worker` (`sync_2_fe.py`,
`sync_2_re.py`): whether `_mark_camera_complete` ran and whether the
`except` handler wrote `RUNNING.value = 0`. -/
structure PropheseeResult where
  marked : Bool
  runningCleared : Bool
deriving DecidableEq, Repr

/-- Model of `_prophesee_capture_worker`: run `start_recording`; on normal return
mark the camera complete; if the adapter raises, print the error and set
`RUNNING.value = 0` (and nothing else). -/
def propheseeCaptureWorker (recordingRaises : Bool) : PropheseeResult :=
  if recordingRaises then { marked := false, runningCleared := true }
  else { marked := true, runningCleared := false }

/-- Capture-side state touched by `ThermalCamera.frame_callback`
(`thermal_lib.py`): the capture flag, the counter of accepted frames, the
target frame count, and the contents of `frame_queue` as a FIFO list whose
head is the oldest entry (each entry is a `(frame pointer, index)` pair,
the pointer abstracted to `Nat`). -/
structure ThermalCbState where
  isCapturing : Bool
  capturedCount : Nat
  targetCount : Nat
  frameQueue : List (Nat × Nat)
deriving DecidableEq, Repr

/-- The `maxsize` of `ThermalCamera.frame_queue`, fixed in `__init__`. -/
def thermalQueueMaxsize : Nat := 500

/-- Model of `ThermalCamera.frame_callback`: ignore the frame when not capturing or
the target is reached (clearing `is_capturing` in the latter case) or the
pointer is null.  Otherwise `put_nowait` the frame: if the queue is below
capacity, append it and bump the counter; if the queue is full, print the
dropped-frame warning, pop up to five of the oldest entries, and retry the
`put_nowait` (which, if it still fails, loses the frame).  Returns the new
state and whether the full-queue warning was printed. -/
def frameCallback (cap : Nat) (s : ThermalCbState) (framePtr : Option Nat) :
    ThermalCbState × Bool :=
  if ¬ s.isCapturing = true ∨ s.targetCount ≤ s.capturedCount then
    (if s.isCapturing = true ∧ s.targetCount ≤ s.capturedCount then
      { s with isCapturing := false } else s, false)
  else
    match framePtr with
    | none => (s, false)
    | some f =>
      if s.frameQueue.length < cap then
        let captured := s.capturedCount + 1
        ({ s with frameQueue := s.frameQueue ++ [(f, s.capturedCount)],
                  capturedCount := captured,
                  isCapturing :=
                    if s.targetCount ≤ captured then false else s.isCapturing },
          false)
      else
        let dropped := s.frameQueue.drop 5
        if dropped.length < cap then
          let captured := s.capturedCount + 1
          ({ s with frameQueue := dropped ++ [(f, s.capturedCount)],
                    capturedCount := captured,
                    isCapturing :=
                      if s.targetCount ≤ captured then false else s.isCapturing },
            true)
        else
          ({ s with frameQueue := dropped }, true)

/-- Observable effects of one call to `send_pulse_command` (identical in
`rp4_ignal.py`, `sync_2_fe.py`, `sync_2_fr.py`, `sync_2_re.py`): whether
the serial port was opened, the lines written to it, whether it was
closed, and whether an exception escaped to the caller.  The inputs say
whether `serial.Serial(...)` succeeds and whether `ser.write` succeeds. -/
structure PulseEffects where
  opened : Bool
  written : List String
  closed : Bool
  raisedToCaller : Bool
deriving DecidableEq, Repr

/-- The command string `f"PULSE,{num_pulses},{frequency}\n"`. -/
def pulseCommandString (numPulses frequency : Nat) : String :=
  "PULSE," ++ toString numPulses ++ "," ++ toString frequency ++ "\x0a"

/-- Model of `send_pulse_command`: open the port, write the one-line command, sleep;
a `SerialException` from either step is caught and printed; the `finally`
block closes the port whenever `ser` was bound.  The function never
re-raises and never retries. -/
def send_pulse_command (openOk writeOk : Bool) (numPulses frequency : Nat) :
    PulseEffects :=
  if openOk = false then
    { opened := false, written := [], closed := false, raisedToCaller := false }
  else if writeOk = false then
    { opened := true, written := [], closed := true, raisedToCaller := false }
  else
    { opened := true, written := [pulseCommandString numPulses frequency],
      closed := true, raisedToCaller := false }

/-- Model of `_save_flir_data` (`sync_2_fe.py` / `sync_2_fr.py`): sort the indices
of the collected `images` dict, drop index 0 (the warm-up frame), and save
the frames of the remaining indices in that order.  The input is the list
of dict keys (distinct sequence indices); the output is the list of
indices actually saved, in saving order. -/
def saveFlirData (keys : List Nat) : List Nat :=
  let sortedIndices := List.insertionSort (· ≤ ·) keys
  sortedIndices.filter (fun i => 0 < i)

/-- Model of `ThermalCamera.process_frames` (`thermal_lib.py`), frame-count part:
`frames_actually_captured = min(captured_count, target_count)`; if that is
at most 1 nothing is saved, otherwise `frames_actually_captured - 1`
frames are scheduled for saving. -/
def thermalFramesToSave (capturedCount targetCount : Nat) : Nat :=
  let framesActuallyCaptured := min capturedCount targetCount
  if framesActuallyCaptured ≤ 1 then 0 else framesActuallyCaptured - 1

/-- Success condition of `ThermalCamera._process_single_frame`: it succeeds on `frame_index` exactly
when the shifted buffer index `frame_index + 1` is inside `frame_buffer`
(conversion and disk I/O aside, which the claim takes as succeeding). -/
def processSingleFrameOk (bufferLen frameIndex : Nat) : Bool :=
  decide (frameIndex + 1 < bufferLen)

/-- The buffer indices persisted by `process_frames`: frame `i` of the
save loop reads `frame_buffer[i + 1]`, skipping buffer index 0. -/
def thermalSavedBufferIndices (capturedCount targetCount : Nat) : List Nat :=
  ((List.range (thermalFramesToSave capturedCount targetCount)).filter
    (fun i => processSingleFrameOk targetCount i)).map (fun i => i + 1)

/-- Result of one `main()` run of a controller script: the value `main`
returned (treated as session success), whether the `finally` teardown ran,
and the process exit status (`sys.exit(0)` on `True`, `sys.exit(1)`
otherwise). -/
structure SessionOutcome where
  mainReturnedTrue : Bool
  cleanupRan : Bool
  exitCode : Nat
deriving DecidableEq, Repr

/-- Model of `AsyncEventThermalController.start_capture` (`sync_2_re.py`), outcome
view: after firing the trigger it waits on `capture_complete_event` with a
50 s timeout; when the wait reports `False` it prints a timeout message and
returns `False`, otherwise it waits for the two processor futures (their
errors are caught) and returns `True`. -/
def reStartCapture (waitCompleted : Bool) : Bool :=
  if waitCompleted = false then false else true

/-- Model of `AsyncFlirEventController.start_capture` (`sync_2_fe.py`), outcome
view: configuration failure or a camera exception returns `False`; on the
normal path the result of `capture_complete_event.wait(timeout=90)` is
discarded and the method returns `True`. -/
def feStartCapture (configOk : Bool) (cameraError : Bool)
    (_ignoredWaitCompleted : Bool) : Bool :=
  if configOk = false then false
  else if cameraError then false
  else true

/-- Model of `main()` of `sync_2_re.py` followed by the `__main__` exit: initialize
the cameras, run `start_capture`, return `False` on any failure; the
`finally` block always runs `controller.cleanup()`; the process exits 0 on
`True` and 1 otherwise. -/
def reMain (initOk : Bool) (waitCompleted : Bool) : SessionOutcome :=
  let ok := if initOk = false then false else reStartCapture waitCompleted
  { mainReturnedTrue := ok, cleanupRan := true,
    exitCode := if ok then 0 else 1 }

/-- Model of `main()` of `sync_2_fe.py` followed by the `__main__` exit. -/
def feMain (initOk configOk cameraError waitCompleted : Bool) :
    SessionOutcome :=
  let ok := if initOk = false then false
            else feStartCapture configOk cameraError waitCompleted
  { mainReturnedTrue := ok, cleanupRan := true,
    exitCode := if ok then 0 else 1 }

/-- Result of `ThermalCamera.connect` (`thermal_lib.py`): the returned
value and the final `self.is_connected`. -/
structure ConnectResult where
  returnValue : Bool
  is_connected : Bool
deriving DecidableEq, Repr

/-- Model of `ThermalCamera.connect`: compute the data port (defaulting to
`30005 + 100 * last-IP-octet`), issue `sdk_creat_connect`, store the
`sdk_isconnect` result into `is_connected`, print it, then overwrite
`is_connected` with `True` ("不使用sdk_isconnect的返回值判断连接状态") and
return `True`. -/
def ThermalCamera.connect (ipLastOctet : Nat) (port : Option Nat)
    (sdkIsconnect : Bool) : ConnectResult :=
  let _dataPort := match port with
    | none => 30005 + 100 * ipLastOctet
    | some p => p
  let isConnectedFromSdk := sdkIsconnect
  let _ := isConnectedFromSdk
  { returnValue := true, is_connected := true }

/-- Model of `_init_thermal` (`sync_2_fr.py` / `sync_2_re.py`): fail when `connect`
returns `False`, then when `configure_camera` returns `False`, otherwise
succeed. -/
def initThermal (ipLastOctet : Nat) (port : Option Nat)
    (sdkIsconnect : Bool) (configureOk : Bool) : Bool :=
  if (ThermalCamera.connect ipLastOctet port sdkIsconnect).returnValue = false
    then false
  else if configureOk = false then false
  else true

/-! ## Claim theorems -/

/-- C1 (counterexample): in `sync_2_fe.py` the state where both capture
workers have finished their capture sections, but no data processing has
happened, is reachable; there `capture_complete_event` is already set (the
barrier has released the orchestrator, with no timeout involved) while the
FLIR sensor has finished only capture, not processing.  This refutes the
claim that the barrier releases only when every sensor reaches its
`ProcessingDone` phase. -/
theorem C1_counterexample :
    FeReachable feBothCaptured ∧ feBothCaptured.completeEvent = true ∧
      feBothCaptured.flir = Phase.captureDone ∧
      feBothCaptured.flir ≠ Phase.processingDone :=
  ⟨feBothCaptured_reachable, rfl, rfl, by decide⟩

/-- C1 (amended): in every reachable state of the `sync_2_fe.py` session,
`capture_complete_event` is set if and only if both sensors have reported
to `_mark_camera_complete` — which their capture workers do right after
capture, before data processing; the barrier therefore releases on
all-capture-done, not on all-processing-done. -/
theorem C1_barrier_release_iff (s : FeState) (h : FeReachable s) :
    s.completeEvent = true ↔
      (s.flir.reported = true ∧ s.event.reported = true) := by
  obtain ⟨hcount, hev⟩ := feInv_reachable h
  constructor
  · intro hevt
    have h2 : 2 ≤ s.completedCameras := of_decide_eq_true (hev.symm.trans hevt)
    by_cases hf : s.flir.reported = true
    · by_cases hg : s.event.reported = true
      · exact ⟨hf, hg⟩
      · exfalso; simp [hf, hg] at hcount; omega
    · exfalso; simp [hf] at hcount
      by_cases hg : s.event.reported = true <;> simp [hg] at hcount <;> omega
  · rintro ⟨hf, hg⟩
    rw [hev, hcount]
    simp [hf, hg]

/-- Witness for C1: the amended theorem applied to the concrete reachable
state in which both capture workers have reported. -/
theorem C1_barrier_release_iff_witness : feBothCaptured.completeEvent = true :=
  (C1_barrier_release_iff feBothCaptured feBothCaptured_reachable).mpr ⟨rfl, rfl⟩

/-- Upper bound on the FR/RE done-counter in reachable states. -/
lemma frCount_le_two {s : FrState} (h : FrReachable s) :
    s.completedCameras ≤ 2 := by
  obtain ⟨hcount, -⟩ := frInv_reachable h
  rw [hcount]; split_ifs <;> omega

/-- C2: along every step of a `sync_2_fr.py` / `sync_2_re.py` session,
`capture_complete_event` is monotone (never cleared once set); it flips
from unset to set exactly at the step where `completed_cameras` first
reaches the sensor total 2 (coming from 1); the counter always equals the
number of sensors that have reported, so each sensor contributes at most
one increment; and the event is set exactly when the counter has reached
the total. -/
theorem C2_complete_event_once (s s' : FrState) (hr : FrReachable s)
    (hstep : FrStep s s') :
    (s.completeEvent = true → s'.completeEvent = true) ∧
    (s.completeEvent = false → s'.completeEvent = true →
      s'.completedCameras = 2 ∧ s.completedCameras = 1) ∧
    s'.completedCameras =
      (if s'.flir.reported then 1 else 0) +
        (if s'.thermal.reported then 1 else 0) ∧
    (s'.completeEvent = true ↔ 2 ≤ s'.completedCameras) := by
  obtain ⟨hc, he⟩ := frInv_reachable hr
  have hr' : FrReachable s' := FrReachable.step hr hstep
  obtain ⟨hc', he'⟩ := frInv_reachable hr'
  obtain ⟨hmono, hinc⟩ := frStep_count hstep
  have hle2 : s.completedCameras ≤ 2 := frCount_le_two hr
  refine ⟨?_, ?_, hc', ?_⟩
  · intro hev
    have h2 : 2 ≤ s.completedCameras := of_decide_eq_true (he.symm.trans hev)
    rw [he']
    exact decide_eq_true (by omega)
  · intro hev hev'
    have h1 : ¬ 2 ≤ s.completedCameras := of_decide_eq_false (he.symm.trans hev)
    have h2 : 2 ≤ s'.completedCameras := of_decide_eq_true (he'.symm.trans hev')
    omega
  · rw [he']
    simp

/-- The FR/RE state after the frame camera's worker alone has reported. -/
def frAfterFlir : FrState :=
  { flir := Phase.captureDone, thermal := Phase.capturing,
    completedCameras := 1, completeEvent := false }

/-- Witness for C2: the theorem applied to the concrete first step of a
session, in which the frame camera's worker reports. -/
theorem C2_complete_event_once_witness :
    frAfterFlir.completedCameras =
      (if frAfterFlir.flir.reported then 1 else 0) +
        (if frAfterFlir.thermal.reported then 1 else 0) :=
  (C2_complete_event_once FrState.init frAfterFlir FrReachable.init
    (FrStep.flirCaptureDone FrState.init rfl)).2.2.1

/-- C3: properties of `_try_sync_stream` (`sync_2_fr.py`).
A composite is pushed only when both ready flags are set and the two
stream ticks differ by at most 1; a successful push clears both ready
flags, and running the synchronizer again on the resulting state pushes
nothing, so a qualifying pair is consumed exactly once; and when all
registration guards hold but the ticks differ by more than 1, nothing is
pushed and the only change is that the ready flag of the sensor with the
lower tick is cleared. -/
theorem C3_stream_pairing (s : StreamState) :
    ((trySyncStream s).2.isSome = true →
      s.flirReady = true ∧ s.thermalReady = true ∧
        (s.latestFlirStreamId - s.latestThermalStreamId).natAbs ≤ 1) ∧
    ((trySyncStream s).2.isSome = true →
      (trySyncStream s).1.flirReady = false ∧
      (trySyncStream s).1.thermalReady = false ∧
      (trySyncStream (trySyncStream s).1).2 = none) ∧
    (s.flirReady = true → s.thermalReady = true →
      s.latestFlir.isSome = true → s.latestThermal.isSome = true →
      0 < s.latestFlirStreamId → 0 < s.latestThermalStreamId →
      1 < (s.latestFlirStreamId - s.latestThermalStreamId).natAbs →
      (trySyncStream s).2 = none ∧
      (s.latestFlirStreamId < s.latestThermalStreamId →
        (trySyncStream s).1 = { s with flirReady := false }) ∧
      (s.latestThermalStreamId < s.latestFlirStreamId →
        (trySyncStream s).1 = { s with thermalReady := false })) := by
  by_cases hg : (s.flirReady && s.thermalReady &&
      s.latestFlir.isSome && s.latestThermal.isSome &&
      decide (0 < s.latestFlirStreamId) &&
      decide (0 < s.latestThermalStreamId)) = true
  · obtain ⟨⟨⟨⟨⟨h1, h2⟩, h3⟩, h4⟩, h5⟩, h6⟩ :=
      by simpa only [Bool.and_eq_true] using hg
    by_cases hd : (s.latestFlirStreamId - s.latestThermalStreamId).natAbs ≤ 1
    · refine ⟨fun _ => ⟨h1, h2, hd⟩, fun _ => ?_, fun _ _ _ _ _ _ hgt => ?_⟩
      · simp [trySyncStream, hg, hd]
      · omega
    · by_cases hlt : s.latestFlirStreamId < s.latestThermalStreamId
      · refine ⟨?_, ?_, fun _ _ _ _ _ _ _ => ?_⟩
        · intro hemit
          exfalso
          simp [trySyncStream, hg, hd, hlt] at hemit
        · intro hemit
          exfalso
          simp [trySyncStream, hg, hd, hlt] at hemit
        · refine ⟨by simp [trySyncStream, hg, hd, hlt], fun _ => ?_, fun hgt => ?_⟩
          · simp [trySyncStream, hg, hd, hlt]
          · omega
      · refine ⟨?_, ?_, fun _ _ _ _ _ _ _ => ?_⟩
        · intro hemit
          exfalso
          simp [trySyncStream, hg, hd, hlt] at hemit
        · intro hemit
          exfalso
          simp [trySyncStream, hg, hd, hlt] at hemit
        · refine ⟨by simp [trySyncStream, hg, hd, hlt], fun hlt2 => ?_, fun _ => ?_⟩
          · exact absurd hlt2 hlt
          · simp [trySyncStream, hg, hd, hlt]
  · refine ⟨?_, ?_, fun hf ht hlf hlt hpf hpt _ => ?_⟩
    · intro hemit
      exfalso
      simp [trySyncStream, hg] at hemit
    · intro hemit
      exfalso
      simp [trySyncStream, hg] at hemit
    · exfalso
      exact hg (by simp [hf, ht, hlf, hlt, hpf, hpt])

/-- A stream state with both cameras ready at tick 3. -/
def c3State : StreamState :=
  { flirFrameCount := 15, thermalFrameCount := 15,
    latestFlir := some 7, latestThermal := some 9,
    latestFlirStreamId := 3, latestThermalStreamId := 3,
    flirReady := true, thermalReady := true }

/-- Witness for C3: on a concrete matched pair the composite is pushed,
both ready flags are cleared, and an immediate re-run pushes nothing. -/
theorem C3_stream_pairing_witness :
    (trySyncStream c3State).1.flirReady = false ∧
    (trySyncStream c3State).1.thermalReady = false ∧
    (trySyncStream (trySyncStream c3State).1).2 = none :=
  (C3_stream_pairing c3State).2.1 (by decide)

/-- Closed form of the capture loop when the adapter never raises and
`RUNNING` stays set: every index in `[i, i + fuel)` is polled once, and
exactly the complete frames are enqueued, in order. -/
lemma workerLoop_no_exn (adapter : Nat → AdapterResult) (running : Nat → Bool)
    (inc : Nat → Bool) (d : Nat → Nat)
    (hA : ∀ j, adapter j = .frame (inc j) (d j))
    (hR : ∀ j, running j = true) :
    ∀ fuel i acc, workerLoop adapter running fuel i acc =
      { enqueued := acc.reverse ++
          (List.range' i fuel).filterMap
            (fun j => if inc j then none else some (j, d j)),
        acquisitionFlag := true, marked := true, runningCleared := false } := by
  intro fuel
  induction fuel with
  | zero => intro i acc; simp [workerLoop]
  | succ n ih =>
      intro i acc
      by_cases hinc : inc i = true
      · rw [show workerLoop adapter running (n + 1) i acc =
            workerLoop adapter running n (i + 1) acc by
              simp [workerLoop, hR i, hA i, hinc],
          ih (i + 1) acc, List.range'_succ]
        simp [hinc]
      · simp [workerLoop, hR i, hA i, hinc, ih, List.range'_succ]

/-- Enqueuing only the complete frames keeps one list entry per complete
index. -/
lemma filterMap_skip_length (inc : Nat → Bool) (d : Nat → Nat) :
    ∀ l : List Nat,
      (l.filterMap (fun j => if inc j then none else some (j, d j))).length =
        (l.filter (fun j => !(inc j))).length := by
  intro l
  induction l with
  | nil => simp
  | cons a t ih =>
      by_cases h : inc a = true <;> simp [h, ih]

/-- C4 (counterexample): with a quota of 2 frames and an adapter that
returns an incomplete frame on the first poll and complete frames on every
later poll, `_flir_capture_worker` enqueues only one frame — the
incomplete frame consumed one of the two `for i in range(NUM_IMAGES)`
iterations, so the worker does not acquire a full quota of complete
frames. -/
theorem C4_counterexample :
    (flirCaptureWorker (fun i => AdapterResult.frame (decide (i = 0)) i)
        (fun _ => true) 2).enqueued = [(1, 1)] ∧
      (flirCaptureWorker (fun i => AdapterResult.frame (decide (i = 0)) i)
        (fun _ => true) 2).enqueued.length ≠ 2 := by
  decide

/-- C4 (amended): when the adapter never raises and `RUNNING` stays set,
the worker polls exactly the quota of `numImages` frames; incomplete
frames are released and skipped (never enqueued) while complete frames are
enqueued as `(index, data)` in index order, so the number of enqueued
frames is the number of complete frames among the `numImages` polls — an
incomplete frame still consumes its loop iteration and is not re-acquired.
The completion block (acquisition flag plus capture-done report) runs
regardless. -/
theorem C4_incomplete_skipped (adapter : Nat → AdapterResult)
    (running : Nat → Bool) (inc : Nat → Bool) (d : Nat → Nat) (numImages : Nat)
    (hA : ∀ j, adapter j = .frame (inc j) (d j))
    (hR : ∀ j, running j = true) :
    (flirCaptureWorker adapter running numImages).enqueued =
      (List.range numImages).filterMap
        (fun j => if inc j then none else some (j, d j)) ∧
    (∀ p ∈ (flirCaptureWorker adapter running numImages).enqueued,
      inc p.1 = false) ∧
    (flirCaptureWorker adapter running numImages).enqueued.length =
      ((List.range numImages).filter (fun j => !(inc j))).length ∧
    (flirCaptureWorker adapter running numImages).marked = true := by
  have hmain := workerLoop_no_exn adapter running inc d hA hR numImages 0 []
  have henq : (flirCaptureWorker adapter running numImages).enqueued =
      (List.range numImages).filterMap
        (fun j => if inc j then none else some (j, d j)) := by
    rw [flirCaptureWorker, hmain]
    simp [List.range_eq_range']
  refine ⟨henq, ?_, ?_, ?_⟩
  · intro p hp
    rw [henq] at hp
    obtain ⟨j, -, hj⟩ := List.mem_filterMap.mp hp
    by_cases h : inc j = true
    · simp [h] at hj
    · simp [h] at hj
      rw [← hj]
      simpa using h
  · rw [henq, filterMap_skip_length]
  · rw [flirCaptureWorker, hmain]

/-- Witness for C4: the amended theorem applied to the concrete adapter of
the counterexample with quota 3: polls 0, 1, 2 yield one incomplete and
two complete frames, and exactly the two complete ones are enqueued. -/
theorem C4_incomplete_skipped_witness :
    (flirCaptureWorker (fun i => AdapterResult.frame (decide (i = 0)) i)
        (fun _ => true) 3).enqueued = [(1, 1), (2, 2)] :=
  ((C4_incomplete_skipped (fun i => AdapterResult.frame (decide (i = 0)) i)
      (fun _ => true) (fun i => decide (i = 0)) (fun i => i) 3
      (fun _ => rfl) (fun _ => rfl)).1).trans (by decide)

/-- C5 (counterexample): when the adapter raises on the very first poll,
`_flir_capture_worker` does clear `RUNNING`, but it never calls
`_mark_camera_complete` — the `except` block contains only the print and
`RUNNING.value = 0` — so the crashing sensor does not report capture-done
to the Completion Barrier. -/
theorem C5_counterexample :
    (flirCaptureWorker (fun _ => AdapterResult.exn) (fun _ => true) 2).runningCleared
        = true ∧
      (flirCaptureWorker (fun _ => AdapterResult.exn) (fun _ => true) 2).marked
        = false := by
  decide

/-- C5 (amended): an adapter exception is caught at the worker boundary and
converted to `RUNNING.value = 0`, with nothing enqueued afterwards, but no
capture-done report is made to the Completion Barrier (in `sync_2_fe.py`
the acquisition flag is not set either); the same holds for the event
worker `_prophesee_capture_worker` when `start_recording` raises.  The
barrier is therefore not released by the crashing worker itself — only the
orchestrator's bounded wait (or cleanup) unblocks the session. -/
theorem C5_exception_no_report :
    (∀ (adapter : Nat → AdapterResult) (running : Nat → Bool) (numImages : Nat),
      0 < numImages → running 0 = true → adapter 0 = AdapterResult.exn →
      flirCaptureWorker adapter running numImages =
        { enqueued := [], acquisitionFlag := false, marked := false,
          runningCleared := true }) ∧
    propheseeCaptureWorker true = { marked := false, runningCleared := true } := by
  refine ⟨?_, rfl⟩
  intro adapter running numImages hn hR hA
  cases numImages with
  | zero => omega
  | succ m => simp [flirCaptureWorker, workerLoop, hR, hA]

/-- Witness for C5: the amended theorem applied to a concrete adapter that
raises immediately, with quota 3. -/
theorem C5_exception_no_report_witness :
    flirCaptureWorker (fun _ => AdapterResult.exn) (fun _ => true) 3 =
      { enqueued := [], acquisitionFlag := false, marked := false,
        runningCleared := true } :=
  C5_exception_no_report.1 (fun _ => AdapterResult.exn) (fun _ => true) 3
    (by decide) rfl rfl

/-- C6: `ThermalCamera.frame_callback` keeps `frame_queue` within its
configured capacity, and on a full queue while capturing it pops the five
oldest entries, appends the newest frame, and reports the dropped-frame
warning. -/
theorem C6_queue_bounded_drop_oldest (cap : Nat) (s : ThermalCbState)
    (framePtr : Option Nat) (hcap : s.frameQueue.length ≤ cap) :
    (frameCallback cap s framePtr).1.frameQueue.length ≤ cap ∧
    (0 < cap → s.frameQueue.length = cap → s.isCapturing = true →
      s.capturedCount < s.targetCount → ∀ p : Nat, framePtr = some p →
      (frameCallback cap s framePtr).1.frameQueue =
          s.frameQueue.drop 5 ++ [(p, s.capturedCount)] ∧
        (frameCallback cap s framePtr).2 = true) := by
  by_cases h1 : ¬ s.isCapturing = true ∨ s.targetCount ≤ s.capturedCount
  · constructor
    · simp only [frameCallback, if_pos h1]
      split_ifs <;> simpa using hcap
    · intro hpos hfull hcapt hlt p hf
      rcases h1 with h1 | h1
      · exact absurd hcapt h1
      · omega
  · push_neg at h1
    obtain ⟨hrun, hlt1⟩ := h1
    have hle : ¬ s.targetCount ≤ s.capturedCount := Nat.not_le.mpr hlt1
    rcases framePtr with _ | f
    · constructor
      · simpa [frameCallback, hrun, hle] using hcap
      · intro _ _ _ _ p hf
        cases hf
    · by_cases h2 : s.frameQueue.length < cap
      · constructor
        · simp [frameCallback, hrun, hle, h2]
          omega
        · intro hpos hfull hcapt hlt p hf
          omega
      · by_cases h3 : s.frameQueue.length - 5 < cap
        · constructor
          · simp [frameCallback, hrun, hle, h2, h3]
            omega
          · intro hpos hfull hcapt hlt p hf
            cases hf
            constructor <;> simp [frameCallback, hrun, hle, h2, h3]
        · constructor
          · simp [frameCallback, hrun, hle, h2, h3]
            omega
          · intro hpos hfull hcapt hlt p hf
            omega

/-- A full six-slot queue while capturing frame index 3 of 10. -/
def c6State : ThermalCbState :=
  { isCapturing := true, capturedCount := 3, targetCount := 10,
    frameQueue := [(10, 0), (11, 1), (12, 2), (13, 3), (14, 4), (15, 5)] }

/-- Witness for C6: with capacity 6 and the queue full, the five oldest
entries are evicted, the new frame is appended, and the warning fires. -/
theorem C6_queue_bounded_drop_oldest_witness :
    (frameCallback 6 c6State (some 99)).1.frameQueue =
        c6State.frameQueue.drop 5 ++ [(99, c6State.capturedCount)] ∧
      (frameCallback 6 c6State (some 99)).2 = true :=
  (C6_queue_bounded_drop_oldest 6 c6State (some 99) (by decide)).2
    (by decide) (by decide) rfl (by decide) 99 rfl

/-- C7 (counterexample): when the serial port cannot be opened,
`send_pulse_command` catches the `SerialException` inside itself, merely
prints the error, and returns normally — the caller observes no
port-unavailable failure at all (and no connection existed to close). -/
theorem C7_counterexample :
    send_pulse_command false true 50 70 =
      { opened := false, written := [], closed := false,
        raisedToCaller := false } := by
  decide

/-- C7 (amended): `send_pulse_command` never raises to the caller and never
retries: it attempts one open and at most one write; whenever the port was
opened it is closed again, on the error path via `finally` as well as on
success; and on the successful path exactly the single ASCII line
`PULSE,<count>,<frequency>\n` is written.  A failed open is only printed,
so the caller cannot observe it. -/
theorem C7_pulse_dispatch (openOk writeOk : Bool) (numPulses frequency : Nat) :
    (send_pulse_command openOk writeOk numPulses frequency).raisedToCaller
        = false ∧
    (send_pulse_command openOk writeOk numPulses frequency).written.length ≤ 1 ∧
    ((send_pulse_command openOk writeOk numPulses frequency).opened = true →
      (send_pulse_command openOk writeOk numPulses frequency).closed = true) ∧
    (openOk = true → writeOk = true →
      (send_pulse_command openOk writeOk numPulses frequency).written =
        [pulseCommandString numPulses frequency]) := by
  cases openOk <;> cases writeOk <;>
    simp [send_pulse_command]

/-- Witness for C7: a successful dispatch of 50 pulses at 70 Hz writes the
single line `PULSE,50,70\n`. -/
theorem C7_pulse_dispatch_witness :
    (send_pulse_command true true 50 70).written = ["PULSE,50,70\x0a"] := by
  have h := (C7_pulse_dispatch true true 50 70).2.2.2 rfl rfl
  rw [h]
  rfl

/-- C8: `_save_flir_data` saves the frames of the distinct collected
indices sorted strictly increasingly with index 0 discarded and every
other collected index saved; `process_frames` on the thermal camera saves
the buffer indices `1, …, captured-1` in strictly increasing order,
skipping buffer index 0, i.e. exactly `captured - 1` images (0 when at
most one frame was captured). -/
theorem C8_finalize_sorted_skip_first (keys : List Nat)
    (capturedCount targetCount : Nat) :
    (keys.Nodup →
      List.Sorted (· < ·) (saveFlirData keys) ∧
      0 ∉ saveFlirData keys ∧
      ∀ i, i ∈ saveFlirData keys ↔ i ∈ keys ∧ 0 < i) ∧
    (capturedCount ≤ targetCount →
      List.Sorted (· < ·) (thermalSavedBufferIndices capturedCount targetCount) ∧
      0 ∉ thermalSavedBufferIndices capturedCount targetCount ∧
      (thermalSavedBufferIndices capturedCount targetCount).length =
        capturedCount - 1) := by
  constructor
  · intro hnd
    have hperm := List.perm_insertionSort (· ≤ ·) keys
    have hsorted : List.Sorted (· ≤ ·) (List.insertionSort (· ≤ ·) keys) :=
      List.sorted_insertionSort (· ≤ ·) keys
    have hnd2 : (List.insertionSort (· ≤ ·) keys).Nodup := hperm.nodup_iff.mpr hnd
    have hlt : List.Sorted (· < ·) (List.insertionSort (· ≤ ·) keys) :=
      hsorted.lt_of_le hnd2
    refine ⟨?_, ?_, ?_⟩
    · exact List.Pairwise.filter _ hlt
    · intro hmem
      have := (List.mem_filter.mp hmem).2
      simp at this
    · intro i
      rw [saveFlirData]
      simp only [List.mem_filter, hperm.mem_iff, decide_eq_true_eq]
  · intro hle
    refine ⟨?_, ?_, ?_⟩
    · have hp : List.Pairwise (· < ·)
          ((List.range (thermalFramesToSave capturedCount targetCount)).filter
            (fun i => processSingleFrameOk targetCount i)) :=
        List.Pairwise.filter _ (List.pairwise_lt_range _)
      exact List.Pairwise.map _ (fun a b hab => Nat.add_lt_add_right hab 1) hp
    · intro hmem
      obtain ⟨j, -, hj⟩ := List.mem_map.mp hmem
      omega
    · have hall : ∀ i ∈ List.range (thermalFramesToSave capturedCount targetCount),
          processSingleFrameOk targetCount i = true := by
        intro i hi
        rw [List.mem_range] at hi
        rw [processSingleFrameOk, decide_eq_true_eq]
        rw [thermalFramesToSave] at hi
        split at hi <;> omega
      rw [thermalSavedBufferIndices, List.length_map,
        List.filter_eq_self.mpr hall, List.length_range, thermalFramesToSave]
      split <;> omega

/-- Witness for C8: the FLIR finalizer on collected indices `[3, 0, 1]`
and the thermal finalizer on a 5-of-5 run. -/
theorem C8_finalize_sorted_skip_first_witness :
    (saveFlirData [3, 0, 1] = [1, 3] ∧ 0 ∉ saveFlirData [3, 0, 1]) ∧
      (thermalSavedBufferIndices 5 5).length = 4 := by
  have h1 := (C8_finalize_sorted_skip_first [3, 0, 1] 5 5).1 (by decide)
  have h2 := (C8_finalize_sorted_skip_first [3, 0, 1] 5 5).2 (by decide)
  exact ⟨⟨by decide, h1.2.1⟩, h2.2.2⟩

/-- C9 (counterexample): in `sync_2_fe.py` a timed-out barrier wait is
invisible to the orchestrator: `start_capture` discards the result of
`capture_complete_event.wait(timeout=90)` and returns `True`, so `main`
reports success and the process exits with status 0. -/
theorem C9_counterexample :
    feMain true true false false =
      { mainReturnedTrue := true, cleanupRan := true, exitCode := 0 } := by
  decide

/-- C9 (amended): in `sync_2_re.py` a timed-out wait does make
`start_capture` return `False`; `main` then reports failure, the `finally`
teardown still runs, and the process exits with status 1.  In
`sync_2_fe.py`, by contrast, `start_capture` ignores the wait result and
returns `True` whenever configuration succeeded and no camera exception
occurred. -/
theorem C9_timeout_handling :
    reStartCapture false = false ∧
    reMain true false =
      { mainReturnedTrue := false, cleanupRan := true, exitCode := 1 } ∧
    (∀ waitCompleted : Bool, feStartCapture true false waitCompleted = true) := by
  decide

/-- C10: `ThermalCamera.connect` ignores the `sdk_isconnect` probe — for
every address, port, and probe outcome it leaves `is_connected = True` and
returns `True`, so `_init_thermal` can only fail in `configure_camera`,
never because the thermal camera did not actually connect. -/
theorem C10_connect_always_succeeds (ipLastOctet : Nat) (port : Option Nat)
    (sdkIsconnect : Bool) (configureOk : Bool) :
    ThermalCamera.connect ipLastOctet port sdkIsconnect =
      { returnValue := true, is_connected := true } ∧
    initThermal ipLastOctet port sdkIsconnect configureOk = configureOk := by
  cases configureOk <;> simp [ThermalCamera.connect, initThermal]
